import Mathlib

/-!
Verification of the calibration / inverse-estimation engine of the
DNS-assay standard-curve tool (`standardcurve1.py`).

Floating-point values are idealized as exact rationals (`ℚ`); the special
float values NaN / +inf / -inf, and the textual sentinels the code mixes
into the same column, are modelled by the `PyVal` sum type.  A `none` of
`Option ℚ` stands for a NaN slope / intercept / absorbance where the code
only distinguishes "NaN or not" via `pd.isna` / `np.isnan`.
-/

namespace StandardCurve

/-- A value that can sit in the "Estimated Glucose" column: a float
(finite, NaN, or an infinity produced by float division by zero) or one of
the textual sentinels returned by `estimate_concentration`. -/
inductive PyVal where
  | nan
  | inf
  | ninf
  | num (q : ℚ)
  | str (s : String)
deriving DecidableEq, Repr

/-- A Python exception that could escape the `try` block of
`estimate_concentration`. -/
inductive PyExn where
  | zeroDivisionError
  | otherError
deriving DecidableEq, Repr

/-- Round half to even to an integer: the tie-breaking rule of Python's
`round`, idealized over exact rationals. -/
def halfEven (x : ℚ) : ℤ :=
  let f : ℤ := Int.floor x
  if x - f < 1/2 then f
  else if 1/2 < x - f then f + 1
  else if f % 2 = 0 then f else f + 1

/-- Python `round(est, 3)` on a finite float, idealized over ℚ. -/
def round3 (q : ℚ) : ℚ := (halfEven (1000 * q) : ℚ) / 1000

/-- Division as performed on `np.float64` operands (line 212): it never raises `ZeroDivisionError`;
a zero divisor yields ±inf (or NaN for 0/0) with only a runtime warning. -/
def npDiv (x y : ℚ) : PyVal :=
  if y = 0 then (if x = 0 then PyVal.nan else if 0 < x then PyVal.inf else PyVal.ninf)
  else PyVal.num (x / y)

/-- Python `round(v, 3)` on a float value: finite values round half-to-even at
3 decimals; `round(nan, 3)` is NaN and `round(±inf, 3)` is ±inf. -/
def pyRound3 : PyVal → PyVal
  | PyVal.num q => PyVal.num (round3 q)
  | v => v

/-- The float comparison `est_conc < 0` (line 213): NaN and +inf compare
false, -inf compares true. -/
def ltZero : PyVal → Bool
  | PyVal.num q => decide (q < 0)
  | PyVal.ninf => true
  | _ => false

/-- The `try` block of `estimate_concentration` (lines 210-215): compute
`(abs_val - intercept) / slope`, clamp negatives to 0.0, else round to 3
decimals.  Under `np.float64` semantics no exception is ever raised. -/
def estimateTry (a m b : ℚ) : Except PyExn PyVal :=
  let est := npDiv (a - b) m
  if ltZero est then Except.ok (PyVal.num 0)
  else Except.ok (pyRound3 est)

/-- The function `estimate_concentration(abs_val, slope, intercept)` (lines 201-220).
`absVal`, `slope`, `intercept` are floats that are either finite (`some q`)
or NaN (`none`): the absorbance comes out of `pd.to_numeric(...,
errors='coerce')` and slope/intercept out of `linregress` or the
`np.nan` fallback.  An `Except.error` would model an exception escaping to
the caller; the `except` handlers (lines 216-220) map every exception of
the `try` block to a return value. -/
def estimate_concentration (absVal slope intercept : Option ℚ) :
    Except PyExn PyVal :=
  match absVal with
  | none => Except.ok PyVal.nan
  | some a =>
    match slope, intercept with
    | some m, some b =>
      match estimateTry a m b with
      | Except.ok v => Except.ok v
      | Except.error PyExn.zeroDivisionError =>
          Except.ok (PyVal.str "Error: Slope is zero")
      | Except.error _ => Except.ok PyVal.nan
    | _, _ => Except.ok (PyVal.str "N/A (no valid linear fit)")

/-- A successful `linregress` result, keeping the fields the program
uses: slope, intercept and the displayed `r_value**2`. -/
structure FitOk where
  slope : ℚ
  intercept : ℚ
  rSquared : ℚ
deriving DecidableEq, Repr

/-- Outcome of the fitting section (lines 104-139): fewer than 2 filtered
points sets `slope = intercept = np.nan` (`insufficientData`); at least 2
points with all-identical concentrations makes `scipy.stats.linregress`
raise `ValueError` ("all x values are identical"), which nothing catches
(`valueError`); otherwise a fit is produced. -/
inductive FitResult where
  | insufficientData
  | valueError
  | ok (f : FitOk)
deriving DecidableEq, Repr

/-- The mask `(x_all >= start_conc) & (x_all <= end_conc)` applied to the
calibration points (lines 105-107). -/
def fitFilter (pts : List (ℚ × ℚ)) (s e : ℚ) : List (ℚ × ℚ) :=
  pts.filter fun p => decide (s ≤ p.1 ∧ p.1 ≤ e)

/-- scipy's degeneracy test `np.amax(x) == np.amin(x)`: all selected
concentrations are identical. -/
def allSameX : List (ℚ × ℚ) → Bool
  | [] => true
  | p :: rest => rest.all fun q => decide (q.1 = p.1)

/-- Mean of the selected concentrations (scipy's `xmean`). -/
def xbarOf (l : List (ℚ × ℚ)) : ℚ := (l.map Prod.fst).sum / l.length

/-- Mean of the selected absorbances (scipy's `ymean`). -/
def ybarOf (l : List (ℚ × ℚ)) : ℚ := (l.map Prod.snd).sum / l.length

/-- scipy's `ssxm`: biased covariance entry Σ(xᵢ−x̄)²/n. -/
def ssxmOf (l : List (ℚ × ℚ)) : ℚ :=
  (l.map fun p => (p.1 - xbarOf l) ^ 2).sum / l.length

/-- scipy's `ssym`: biased covariance entry Σ(yᵢ−ȳ)²/n. -/
def ssymOf (l : List (ℚ × ℚ)) : ℚ :=
  (l.map fun p => (p.2 - ybarOf l) ^ 2).sum / l.length

/-- scipy's `ssxym`: biased covariance entry Σ(xᵢ−x̄)(yᵢ−ȳ)/n. -/
def ssxymOf (l : List (ℚ × ℚ)) : ℚ :=
  (l.map fun p => (p.1 - xbarOf l) * (p.2 - ybarOf l)).sum / l.length

/-- scipy's `slope = ssxym / ssxm`. -/
def slopeOf (l : List (ℚ × ℚ)) : ℚ := ssxymOf l / ssxmOf l

/-- scipy's `intercept = ymean - slope * xmean`. -/
def interceptOf (l : List (ℚ × ℚ)) : ℚ := ybarOf l - slopeOf l * xbarOf l

/-- The displayed `r_value**2`: scipy sets `r = 0` when `ssxm` or `ssym`
is zero, otherwise `r = ssxym / sqrt(ssxm * ssym)` clamped into [-1, 1];
squaring gives `min 1 (ssxym² / (ssxm·ssym))`. -/
def r2Of (l : List (ℚ × ℚ)) : ℚ :=
  if ssxmOf l = 0 ∨ ssymOf l = 0 then 0
  else min 1 (ssxymOf l ^ 2 / (ssxmOf l * ssymOf l))

/-- The fitting step (lines 104-139): filter to the selected range, guard
`len(x_linear) >= 2`, then `linregress` (which raises if all selected
concentrations coincide). -/
def fit (pts : List (ℚ × ℚ)) (s e : ℚ) : FitResult :=
  if 2 ≤ (fitFilter pts s e).length then
    if allSameX (fitFilter pts s e) then FitResult.valueError
    else
      FitResult.ok
        ⟨slopeOf (fitFilter pts s e), interceptOf (fitFilter pts s e),
          r2Of (fitFilter pts s e)⟩
  else FitResult.insufficientData

/-- Spec formula for the slope: Σ(xᵢ−x̄)(yᵢ−ȳ) / Σ(xᵢ−x̄)², without the
1/n normalization scipy applies to numerator and denominator. -/
def slopeSpec (l : List (ℚ × ℚ)) : ℚ :=
  (l.map fun p => (p.1 - xbarOf l) * (p.2 - ybarOf l)).sum /
    (l.map fun p => (p.1 - xbarOf l) ^ 2).sum

/-- Variable `original_conc_final` (lines 258-272): starts as NaN (`none`) and is
assigned `est * dil` exactly when `estimated_conc_input > 0 and
dilution_factor_input >= 1 and not np.isnan(slope) and not
np.isnan(intercept)`; every other branch leaves it NaN. -/
def original_conc_final (est dil : ℚ) (slope intercept : Option ℚ) :
    Option ℚ :=
  if 0 < est ∧ 1 ≤ dil ∧ slope.isSome ∧ intercept.isSome
  then some (est * dil) else none

/-- Number `n` printed as a `k`-digit zero-padded decimal string. -/
def fracStr : Nat → Nat → String
  | _, 0 => ""
  | n, k+1 => fracStr (n / 10) k ++ toString (n % 10)

/-- Strip trailing zeros, keeping at least one digit. -/
def trimR (s : String) : String :=
  let cs := (s.toList.reverse.dropWhile fun c => c = '0').reverse
  if cs.isEmpty then "0" else String.mk cs

/-- Python's `str()` / pandas' rendering of a finite float, idealized as
the decimal expansion to at most 6 places with trailing zeros trimmed
(always keeping one fractional digit, so `str(1.0) = "1.0"`). -/
def fmtFloat (q : ℚ) : String :=
  let r := halfEven (1000000 * q)
  let sgn := if r < 0 then "-" else ""
  let a := r.natAbs
  sgn ++ toString (a / 1000000) ++ "." ++ trimR (fracStr (a % 1000000) 6)

/-- The f-string format `{x:.3f}` on a finite float, idealized over ℚ. -/
def fmt3 (q : ℚ) : String :=
  let r := halfEven (1000 * q)
  let sgn := if r < 0 then "-" else ""
  let a := r.natAbs
  sgn ++ toString (a / 1000) ++ "." ++ fracStr (a % 1000) 3

/-- Format `{x:.3f}` on a float that may be NaN: Python renders NaN as "nan". -/
def fmt3f : Option ℚ → String
  | none => "nan"
  | some q => fmt3 q

/-- A cell of the standard-curve table as written by
`DataFrame.to_csv`: pandas renders NaN with the default `na_rep`, the
EMPTY string. -/
def csvCellQ : Option ℚ → String
  | none => ""
  | some q => fmtFloat q

/-- A cell of the unknown-sample table as written by
`DataFrame.to_csv`: NaN renders as the empty string (pandas default),
floats by their decimal rendering, sentinels by their text. -/
def csvCell : PyVal → String
  | PyVal.nan => ""
  | PyVal.inf => "inf"
  | PyVal.ninf => "-inf"
  | PyVal.num q => fmtFloat q
  | PyVal.str s => s

/-- Rendering of `std_df.to_csv(index=False)`: header plus one line per calibration
row (cells may be NaN if the user cleared them). -/
def stdCsv (rows : List (Option ℚ × Option ℚ)) : String :=
  "Glucose (mg/mL),Absorbance (AU)\n" ++
    String.join (rows.map fun p => csvCellQ p.1 ++ "," ++ csvCellQ p.2 ++ "\n")

/-- A row of `edited_unknown` at export time: dilution label, absorbance
cell, and the derived "Estimated Glucose (mg/mL)" cell. -/
structure UnknownRow where
  label : String
  absorbance : PyVal
  estimate : PyVal
deriving DecidableEq, Repr

/-- Rendering of `unknown_df.to_csv(index=False)`. -/
def unknownCsv (rows : List UnknownRow) : String :=
  "Dilution Factor,Absorbance (AU),Estimated Glucose (mg/mL)\n" ++
    String.join (rows.map fun r =>
      r.label ++ "," ++ csvCell r.absorbance ++ "," ++ csvCell r.estimate ++ "\n")

/-- The final-concentration block (lines 299-304): an explicit marker
when `final_conc` is NaN, the formatted value otherwise. -/
def finalBlock (beverage : String) : Option ℚ → String
  | some fc =>
      "\n\n--- Final Original Concentration for " ++ beverage ++ " ---\n" ++
        "Original Glucose Concentration: " ++ fmt3 fc ++ " mg/mL\n"
  | none =>
      "\n\n--- Final Original Concentration ---\n" ++
        "Not calculated or invalid input (check estimated concentration and dilution factor, and if a valid linear fit was made).\n"

/-- Function `generate_combined_csv` (lines 289-306): pure concatenation of the
already-derived blocks. -/
def generate_combined_csv (stdRows : List (Option ℚ × Option ℚ))
    (unknownRows : List UnknownRow) (finalConc : Option ℚ)
    (beverage : String) (slope intercept r2 : Option ℚ)
    (startC endC : ℚ) : String :=
  "Standard Curve Data:\n" ++ stdCsv stdRows ++
    "\n\n--- Linear Fit Equation (from selected range) ---\n" ++
    "Range used for fit: " ++ fmtFloat startC ++ " mg/mL to " ++
      fmtFloat endC ++ " mg/mL\n" ++
    "Absorbance = " ++ fmt3f slope ++ " * Concentration + " ++
      fmt3f intercept ++ "\n" ++
    "R-squared: " ++ fmt3f r2 ++ "\n\n" ++
    "Beverage Analysis Data for " ++ beverage ++ ":\n" ++
    unknownCsv unknownRows ++
    finalBlock beverage finalConc

/-! ## Helper lemmas -/

lemma allSameX_eq_of_mem (l : List (ℚ × ℚ)) (h : allSameX l = true) :
    ∀ p ∈ l, ∀ q ∈ l, p.1 = q.1 := by
  cases l with
  | nil => intro p hp; cases hp
  | cons a t =>
    intro p hp q hq
    simp only [allSameX, List.all_eq_true, decide_eq_true_eq] at h
    have hp1 : p.1 = a.1 := by
      rcases List.mem_cons.mp hp with rfl | hp2
      · rfl
      · exact h p hp2
    have hq1 : q.1 = a.1 := by
      rcases List.mem_cons.mp hq with rfl | hq2
      · rfl
      · exact h q hq2
    rw [hp1, hq1]

lemma allSameX_false_of_distinct (l : List (ℚ × ℚ))
    (hd : ∃ p ∈ l, ∃ q ∈ l, p.1 ≠ q.1) : allSameX l = false := by
  rcases hd with ⟨p, hp, q, hq, hne⟩
  cases hA : allSameX l with
  | false => rfl
  | true => exact absurd (allSameX_eq_of_mem l hA p hp q hq) hne

lemma div_div_div_same (A B n : ℚ) (hn : n ≠ 0) : A / n / (B / n) = A / B := by
  rcases eq_or_ne B 0 with hB | hB
  · simp [hB]
  · field_simp

lemma halfEven_close (x : ℚ) : |((halfEven x : ℤ) : ℚ) - x| ≤ 1/2 := by
  have h0 : (Int.floor x : ℚ) ≤ x := Int.floor_le x
  have h1 : x < (Int.floor x : ℚ) + 1 := Int.lt_floor_add_one x
  simp only [halfEven]
  split_ifs with hlt hgt hev <;>
    (rw [abs_le]; constructor <;> push_cast <;> linarith)

lemma round3_close (q : ℚ) : |round3 q - q| ≤ 1/2000 := by
  have key : round3 q - q = (((halfEven (1000 * q) : ℤ) : ℚ) - 1000 * q) / 1000 := by
    unfold round3; ring
  have h := halfEven_close (1000 * q)
  rw [key, abs_div, abs_of_pos (show (0:ℚ) < 1000 by norm_num)]
  linarith

lemma halfEven_intCast (n : ℤ) : halfEven ((n:ℚ)) = n := by
  simp only [halfEven]
  rw [Int.floor_intCast]
  norm_num

lemma fmtFloat_zero : fmtFloat 0 = "0.0" := by
  have h : (1000000 * (0:ℚ)) = ((0:ℤ):ℚ) := by push_cast; ring
  simp only [fmtFloat, h, halfEven_intCast]
  rfl

lemma fmtFloat_ten : fmtFloat 10 = "10.0" := by
  have h : (1000000 * (10:ℚ)) = ((10000000:ℤ):ℚ) := by push_cast; ring
  simp only [fmtFloat, h, halfEven_intCast]
  rfl

lemma fmt3_zero : fmt3 0 = "0.000" := by
  have h : (1000 * (0:ℚ)) = ((0:ℤ):ℚ) := by push_cast; ring
  simp only [fmt3, h, halfEven_intCast]
  rfl

lemma fmt3_one : fmt3 1 = "1.000" := by
  have h : (1000 * (1:ℚ)) = ((1000:ℤ):ℚ) := by push_cast; ring
  simp only [fmt3, h, halfEven_intCast]
  rfl

lemma two_point_xbar (a b c d : ℚ) : xbarOf [(a, b), (c, d)] = (a + c) / 2 := by
  simp [xbarOf]

lemma two_point_ybar (a b c d : ℚ) : ybarOf [(a, b), (c, d)] = (b + d) / 2 := by
  simp [ybarOf]

lemma two_point_ssxm (a b c d : ℚ) :
    ssxmOf [(a, b), (c, d)] = (a - c) ^ 2 / 4 := by
  simp [ssxmOf, two_point_xbar]
  ring

lemma two_point_ssym (a b c d : ℚ) :
    ssymOf [(a, b), (c, d)] = (b - d) ^ 2 / 4 := by
  simp [ssymOf, two_point_ybar]
  ring

lemma two_point_ssxym (a b c d : ℚ) :
    ssxymOf [(a, b), (c, d)] = (a - c) * (b - d) / 4 := by
  simp [ssxymOf, two_point_xbar, two_point_ybar]
  ring

lemma two_point_slope (a b c d : ℚ) (hx : a ≠ c) :
    slopeOf [(a, b), (c, d)] = (b - d) / (a - c) := by
  have hd : a - c ≠ 0 := sub_ne_zero.mpr hx
  rw [slopeOf, two_point_ssxym, two_point_ssxm]
  rw [div_div_div_same _ _ _ (by norm_num : (4:ℚ) ≠ 0), pow_two,
    mul_div_mul_left _ _ hd]

lemma two_point_through_first (a b c d : ℚ) (hx : a ≠ c) :
    slopeOf [(a, b), (c, d)] * a + interceptOf [(a, b), (c, d)] = b := by
  have hd : a - c ≠ 0 := sub_ne_zero.mpr hx
  rw [interceptOf, two_point_slope a b c d hx, two_point_xbar, two_point_ybar]
  field_simp
  ring

lemma two_point_through_second (a b c d : ℚ) (hx : a ≠ c) :
    slopeOf [(a, b), (c, d)] * c + interceptOf [(a, b), (c, d)] = d := by
  have hd : a - c ≠ 0 := sub_ne_zero.mpr hx
  rw [interceptOf, two_point_slope a b c d hx, two_point_xbar, two_point_ybar]
  field_simp
  ring

lemma two_point_r2 (a b c d : ℚ) (hx : a ≠ c) :
    r2Of [(a, b), (c, d)] = (if b = d then 0 else 1) := by
  have hd : a - c ≠ 0 := sub_ne_zero.mpr hx
  rw [r2Of, two_point_ssxm, two_point_ssym, two_point_ssxym]
  by_cases hbd : b = d
  · subst hbd
    simp
  · have he : b - d ≠ 0 := sub_ne_zero.mpr hbd
    have h1 : (a - c) ^ 2 / 4 ≠ 0 :=
      div_ne_zero (pow_ne_zero 2 hd) (by norm_num)
    have h2 : (b - d) ^ 2 / 4 ≠ 0 :=
      div_ne_zero (pow_ne_zero 2 he) (by norm_num)
    rw [if_neg (by push_neg; exact ⟨h1, h2⟩)]
    have hrat : ((a - c) * (b - d) / 4) ^ 2 /
        ((a - c) ^ 2 / 4 * ((b - d) ^ 2 / 4)) = 1 := by
      field_simp
      ring
    rw [hrat, if_neg hbd, min_self]

/-! ## Claim theorems -/

/-- C1: for every calibration set and fit range whose filtered subset
contains at least 2 points with at least two distinct concentration
values, the fit's slope equals Σ(xᵢ−x̄)(yᵢ−ȳ) / Σ(xᵢ−x̄)² and the
intercept equals ȳ − slope·x̄, computed over exactly the points with
start ≤ concentration ≤ end. -/
theorem fit_slope_intercept_formula (pts : List (ℚ × ℚ)) (s e : ℚ)
    (h2 : 2 ≤ (fitFilter pts s e).length)
    (hd : ∃ p ∈ fitFilter pts s e, ∃ q ∈ fitFilter pts s e, p.1 ≠ q.1) :
    ∃ f, fit pts s e = FitResult.ok f ∧
      f.slope = slopeSpec (fitFilter pts s e) ∧
      f.intercept =
        ybarOf (fitFilter pts s e) - f.slope * xbarOf (fitFilter pts s e) := by
  have hA := allSameX_false_of_distinct _ hd
  have hn : ((fitFilter pts s e).length : ℚ) ≠ 0 := by
    have hpos : 0 < (fitFilter pts s e).length := lt_of_lt_of_le (by norm_num) h2
    exact_mod_cast Nat.pos_iff_ne_zero.mp hpos
  refine ⟨⟨slopeOf (fitFilter pts s e), interceptOf (fitFilter pts s e),
    r2Of (fitFilter pts s e)⟩, ?_, ?_, ?_⟩
  · unfold fit
    rw [if_pos h2, if_neg (by simp [hA])]
  · show slopeOf (fitFilter pts s e) = slopeSpec (fitFilter pts s e)
    unfold slopeOf ssxymOf ssxmOf slopeSpec
    exact div_div_div_same _ _ _ hn
  · rfl

/-- Witness for C1 at the concrete calibration set
[(0,0),(1,1),(2,2)] with range [0,2]. -/
theorem fit_slope_intercept_formula_witness :
    (2 ≤ (fitFilter [(0,0),(1,1),(2,2)] 0 2).length) ∧
    (∃ f, fit [(0,0),(1,1),(2,2)] 0 2 = FitResult.ok f ∧
      f.slope = slopeSpec (fitFilter [(0,0),(1,1),(2,2)] 0 2) ∧
      f.intercept = ybarOf (fitFilter [(0,0),(1,1),(2,2)] 0 2) -
        f.slope * xbarOf (fitFilter [(0,0),(1,1),(2,2)] 0 2)) :=
  ⟨by decide,
    fit_slope_intercept_formula [(0,0),(1,1),(2,2)] 0 2 (by decide)
      ⟨(0,0), by decide, (1,1), by decide, by decide⟩⟩

/-- C2: round-trip — for slope m ≠ 0, intercept b and any concentration
C ≥ 0, estimating from the absorbance m·C + b returns round3 C, which is
within 1/2000 (half of the last kept decimal) of C. -/
theorem estimate_round_trip (m b C : ℚ) (hm : m ≠ 0) (hC : 0 ≤ C) :
    estimate_concentration (some (m * C + b)) (some m) (some b) =
      Except.ok (PyVal.num (round3 C)) ∧ |round3 C - C| ≤ 1/2000 := by
  have hq : (m * C + b - b) / m = C := by
    field_simp
  constructor
  · simp only [estimate_concentration, estimateTry, npDiv, if_neg hm, hq,
      ltZero, pyRound3]
    rw [if_neg (by simp [not_lt.mpr hC])]
  · exact round3_close C

/-- Witness for C2 at m = 2, b = 1, C = 3. -/
theorem estimate_round_trip_witness :
    (2:ℚ) ≠ 0 ∧ (0:ℚ) ≤ 3 ∧
    (estimate_concentration (some (2 * 3 + 1)) (some 2) (some 1) =
      Except.ok (PyVal.num (round3 3)) ∧ |round3 (3:ℚ) - 3| ≤ 1/2000) :=
  ⟨by norm_num, by norm_num, estimate_round_trip 2 1 3 (by norm_num) (by norm_num)⟩

/-- C3: for a valid fit (finite slope ≠ 0, finite intercept) and any
numeric absorbance a, the estimate is round3 ((a − b)/m) when the
quotient is nonnegative, and exactly 0.0 when it is negative. -/
theorem estimate_formula_clamp (a m b : ℚ) (hm : m ≠ 0) :
    estimate_concentration (some a) (some m) (some b) =
      Except.ok (PyVal.num
        (if (a - b) / m < 0 then 0 else round3 ((a - b) / m))) := by
  simp only [estimate_concentration, estimateTry, npDiv, if_neg hm,
    ltZero, pyRound3]
  by_cases h : (a - b) / m < 0
  · simp [h]
  · simp [h]

/-- Witness for C3 at a = 0, m = 1, b = 1 (negative quotient, clamped). -/
theorem estimate_formula_clamp_witness :
    (1:ℚ) ≠ 0 ∧
    estimate_concentration (some 0) (some 1) (some 1) =
      Except.ok (PyVal.num
        (if ((0:ℚ) - 1) / 1 < 0 then 0 else round3 (((0:ℚ) - 1) / 1))) :=
  ⟨by norm_num, estimate_formula_clamp 0 1 1 (by norm_num)⟩

/-- C4: the dilution correction yields exactly est × dil when est > 0,
dil ≥ 1 and the fit is valid; when any precondition fails it stays NaN
(`none`): no number — in particular not 0 — is produced. -/
theorem original_conc_final_spec (est dil : ℚ) (slope intercept : Option ℚ) :
    (0 < est ∧ 1 ≤ dil ∧ slope.isSome ∧ intercept.isSome →
      original_conc_final est dil slope intercept = some (est * dil)) ∧
    (¬(0 < est ∧ 1 ≤ dil ∧ slope.isSome ∧ intercept.isSome) →
      original_conc_final est dil slope intercept = none) := by
  constructor <;> intro h <;> simp only [original_conc_final, if_pos, if_neg, h] <;>
    simp [h]

/-- Witness for C4: Scenario 3 (est = 0.5, dil = 10 → 5.0) and
Scenario 4 (est = 0, dil = 1 → Unavailable). -/
theorem original_conc_final_spec_witness :
    ((0:ℚ) < 1/2 ∧ (1:ℚ) ≤ 10 ∧ (some (1:ℚ)).isSome ∧ (some (0:ℚ)).isSome) ∧
    original_conc_final (1/2) 10 (some 1) (some 0) = some (1/2 * 10) ∧
    original_conc_final 0 1 (some 1) (some 0) = none :=
  ⟨⟨by norm_num, by norm_num, rfl, rfl⟩,
    (original_conc_final_spec (1/2) 10 (some 1) (some 0)).1
      ⟨by norm_num, by norm_num, rfl, rfl⟩,
    (original_conc_final_spec 0 1 (some 1) (some 0)).2
      (fun h => absurd h.1 (lt_irrefl 0))⟩

/-- C5 (code bug): with ≥ 2 filtered points all at the same
concentration, the code reaches `linregress`, which raises an uncaught
`ValueError` instead of returning InsufficientData; with < 2 points it
does return the InsufficientData state (NaN slope/intercept). -/
theorem fit_identical_conc_value_error :
    fit [(1, 0), (1, 1/10)] 0 2 = FitResult.valueError ∧
    fit [(1, 0)] 0 2 = FitResult.insufficientData := by
  decide

/-- C6 counterexample: with slope exactly 0 (and intercept 0) and
absorbance 1, the estimator returns +inf — not the invalid-fit sentinel,
nor even the dead "Error: Slope is zero" branch. -/
theorem estimate_zero_slope_not_sentinel :
    estimate_concentration (some 1) (some 0) (some 0) = Except.ok PyVal.inf ∧
    PyVal.inf ≠ PyVal.str "N/A (no valid linear fit)" ∧
    PyVal.inf ≠ PyVal.str "Error: Slope is zero" :=
  ⟨by simp [estimate_concentration, estimateTry, npDiv, ltZero, pyRound3],
    by decide, by decide⟩

/-- C6 amended: the "N/A (no valid linear fit)" sentinel is returned
exactly when the fit itself failed (slope or intercept NaN), and it is
distinguishable from the missing-input NaN; a slope of exactly zero does
not produce it. -/
theorem estimate_invalid_fit_sentinel (a : ℚ) (slope intercept : Option ℚ)
    (h : slope = none ∨ intercept = none) :
    estimate_concentration (some a) slope intercept =
      Except.ok (PyVal.str "N/A (no valid linear fit)") ∧
    PyVal.str "N/A (no valid linear fit)" ≠ PyVal.nan := by
  refine ⟨?_, by decide⟩
  rcases h with h | h
  · subst h; rfl
  · subst h; cases slope <;> rfl

/-- Witness for C6 amended at a = 1, slope = NaN, intercept = 0. -/
theorem estimate_invalid_fit_sentinel_witness :
    ((none : Option ℚ) = none ∨ (some (0:ℚ)) = none) ∧
    (estimate_concentration (some 1) none (some 0) =
      Except.ok (PyVal.str "N/A (no valid linear fit)") ∧
    PyVal.str "N/A (no valid linear fit)" ≠ PyVal.nan) :=
  ⟨Or.inl rfl, estimate_invalid_fit_sentinel 1 none (some 0) (Or.inl rfl)⟩

set_option maxRecDepth 40000 in
/-- C7 counterexample: a missing (NaN) absorbance renders as an EMPTY
CSV field (pandas `to_csv` default `na_rep`), not as an explicit textual
marker: the exported record for a single unknown row with NaN absorbance
and NaN estimate contains the silently blank line "1:20,,". -/
theorem csv_nan_blank_cell :
    csvCell PyVal.nan = "" ∧
    generate_combined_csv [(some 0, some 0)]
        [⟨"1:20", PyVal.nan, PyVal.nan⟩] none "Orange Soda"
        (some 1) (some 0) (some 1) 0 10 =
      "Standard Curve Data:\nGlucose (mg/mL),Absorbance (AU)\n0.0,0.0\n\n\n--- Linear Fit Equation (from selected range) ---\nRange used for fit: 0.0 mg/mL to 10.0 mg/mL\nAbsorbance = 1.000 * Concentration + 0.000\nR-squared: 1.000\n\nBeverage Analysis Data for Orange Soda:\nDilution Factor,Absorbance (AU),Estimated Glucose (mg/mL)\n1:20,,\n\n\n--- Final Original Concentration ---\nNot calculated or invalid input (check estimated concentration and dilution factor, and if a valid linear fit was made).\n" := by
  refine ⟨rfl, ?_⟩
  simp only [generate_combined_csv, stdCsv, unknownCsv, finalBlock, csvCellQ,
    csvCell, fmt3f, fmtFloat_zero, fmtFloat_ten, fmt3_zero, fmt3_one,
    List.map_cons, List.map_nil, String.join]
  rfl

/-- C7 amended: the invalid-fit estimate and the uncalculated final
concentration do render as explicit textual markers, and NaN fit
parameters render as "nan"; but missing (NaN) table cells render as the
empty string, i.e. as silently blank fields. -/
theorem csv_markers_amended (beverage : String) :
    csvCell (PyVal.str "N/A (no valid linear fit)") =
      "N/A (no valid linear fit)" ∧
    finalBlock beverage none =
      "\n\n--- Final Original Concentration ---\nNot calculated or invalid input (check estimated concentration and dilution factor, and if a valid linear fit was made).\n" ∧
    fmt3f none = "nan" ∧
    csvCell PyVal.nan = "" :=
  ⟨rfl, rfl, rfl, rfl⟩

/-- C8 counterexample: a filtered subset of exactly 2 points with equal
absorbances, (0, 5) and (1, 5), yields a fit (slope 0, intercept 5) whose
reported rSquared is 0, not 1.0 (scipy sets r = 0 when ssym = 0). -/
theorem two_point_flat_r2 :
    fit [((0:ℚ), (5:ℚ)), (1, 5)] 0 1 = FitResult.ok ⟨0, 5, 0⟩ ∧
    (0:ℚ) ≠ 1 := by
  have hx : (0:ℚ) ≠ 1 := by norm_num
  refine ⟨?_, hx⟩
  have hf : fitFilter [((0:ℚ), (5:ℚ)), (1, 5)] 0 1 = [((0:ℚ), (5:ℚ)), (1, 5)] := by
    decide
  have hslope : slopeOf [((0:ℚ), (5:ℚ)), (1, 5)] = 0 := by
    rw [two_point_slope 0 5 1 5 hx]
    norm_num
  have hinter : interceptOf [((0:ℚ), (5:ℚ)), (1, 5)] = 5 := by
    rw [interceptOf, hslope, two_point_ybar]
    norm_num
  have hr2 : r2Of [((0:ℚ), (5:ℚ)), (1, 5)] = 0 := by
    rw [two_point_r2 0 5 1 5 hx]
    norm_num
  unfold fit
  rw [hf, if_pos (by norm_num), if_neg (by
    simp only [allSameX, List.all_cons, List.all_nil, Bool.and_true,
      decide_eq_true_eq]
    norm_num), hslope, hinter, hr2]

/-- C8 amended: when the filtered subset is exactly 2 points with
distinct concentrations, the fit line passes exactly through both
points, and rSquared is 1.0 when the two absorbances differ (it is 0
when they coincide). -/
theorem two_point_fit_interpolates (pts : List (ℚ × ℚ)) (s e : ℚ)
    (p q : ℚ × ℚ) (hf : fitFilter pts s e = [p, q]) (hx : p.1 ≠ q.1) :
    ∃ f, fit pts s e = FitResult.ok f ∧
      f.slope * p.1 + f.intercept = p.2 ∧
      f.slope * q.1 + f.intercept = q.2 ∧
      f.rSquared = (if p.2 = q.2 then 0 else 1) := by
  obtain ⟨a, b⟩ := p
  obtain ⟨c, d⟩ := q
  simp only at hx
  unfold fit
  rw [hf]
  rw [if_pos (by norm_num), if_neg (by
    simp only [allSameX, List.all_cons, List.all_nil, Bool.and_true,
      decide_eq_true_eq]
    exact fun h => hx h.symm)]
  exact ⟨_, rfl, two_point_through_first a b c d hx,
    two_point_through_second a b c d hx, two_point_r2 a b c d hx⟩

/-- Witness for C8 amended at points (0,0) and (1,3), range [0,1]. -/
theorem two_point_fit_interpolates_witness :
    (fitFilter [((0:ℚ), (0:ℚ)), (1, 3)] 0 1 = [(0, 0), (1, 3)]) ∧
    ((0:ℚ), (0:ℚ)).1 ≠ ((1:ℚ), (3:ℚ)).1 ∧
    (∃ f, fit [((0:ℚ), (0:ℚ)), (1, 3)] 0 1 = FitResult.ok f ∧
      f.slope * ((0:ℚ), (0:ℚ)).1 + f.intercept = ((0:ℚ), (0:ℚ)).2 ∧
      f.slope * ((1:ℚ), (3:ℚ)).1 + f.intercept = ((1:ℚ), (3:ℚ)).2 ∧
      f.rSquared = (if ((0:ℚ), (0:ℚ)).2 = ((1:ℚ), (3:ℚ)).2 then 0 else 1)) :=
  ⟨by decide, by decide,
    two_point_fit_interpolates [((0:ℚ), (0:ℚ)), (1, 3)] 0 1 (0, 0) (1, 3)
      (by decide) (by decide)⟩

/-- C9: the missing-input check precedes the invalid-fit check: a NaN
absorbance yields the missing sentinel (NaN) whatever the slope and
intercept are, even both NaN. -/
theorem estimate_missing_precedence (slope intercept : Option ℚ) :
    estimate_concentration none slope intercept = Except.ok PyVal.nan := rfl

/-- C10: the estimator is total at its interface: for every absorbance
and slope/intercept pair it returns a value — a float (finite number,
NaN or an infinity) or a textual sentinel — and never lets an exception
escape (`Except.error` is never produced). -/
theorem estimate_total (absVal slope intercept : Option ℚ) :
    ∃ v : PyVal, estimate_concentration absVal slope intercept =
      Except.ok v ∧
      (v = PyVal.nan ∨ v = PyVal.inf ∨ v = PyVal.ninf ∨
        (∃ x, v = PyVal.num x) ∨ (∃ t, v = PyVal.str t)) := by
  have hv : ∀ v : PyVal, v = PyVal.nan ∨ v = PyVal.inf ∨ v = PyVal.ninf ∨
      (∃ x, v = PyVal.num x) ∨ (∃ t, v = PyVal.str t) := by
    intro v
    cases v with
    | nan => exact Or.inl rfl
    | inf => exact Or.inr (Or.inl rfl)
    | ninf => exact Or.inr (Or.inr (Or.inl rfl))
    | num x => exact Or.inr (Or.inr (Or.inr (Or.inl ⟨x, rfl⟩)))
    | str t => exact Or.inr (Or.inr (Or.inr (Or.inr ⟨t, rfl⟩)))
  cases absVal with
  | none => exact ⟨PyVal.nan, rfl, hv _⟩
  | some a =>
    cases slope with
    | none => cases intercept <;> exact ⟨_, rfl, hv _⟩
    | some m =>
      cases intercept with
      | none => exact ⟨_, rfl, hv _⟩
      | some b =>
        simp only [estimate_concentration, estimateTry]
        split
        · exact ⟨_, rfl, hv _⟩
        · exact ⟨_, rfl, hv _⟩
        · exact ⟨_, rfl, hv _⟩

end StandardCurve
